import Mathlib

/-!
# Verification of the micrified.com auth / sequenced-write core

Shallow embedding of the Go source under `src/`:
* `src/unnamed/part_001` — package `login` (the `/login` POST handler),
* `src/unnamed/part_000` — package `static` (the `/static/{name}` GET and POST handlers),
* `src/route/blog/blog.go` — package `blog` (GET/POST/PUT/DELETE handlers).

The `service/auth` package (`Penalised`, `Penalise`, `NoPenalty`, `Authenticate`,
`Authorized`) and the `service/database` package (`Transaction`, `Connection`)
are not part of the given sources; where their behaviour decides a claim they
are modelled from the specification (spec §4.2–§4.5) and marked
`Modelled from the spec:` in their doc comments.  Everything else is translated
directly from the Go source.  Handlers are embedded starting from the parsed
request body (body reading and JSON unmarshalling errors return before any of
the behaviour the claims speak about).
-/

namespace Micrified

/-- Error values: Go `error` modelled by its message string. -/
abbrev Err := String

/-! ## Penalty tracker (spec §4.2)

`Modelled from the spec:` the `service/auth` penalty tracker is missing from
`src/`.  Per spec §4.2 and §8 the penalty record is a binary per-origin flag:
`penalise` sets it (idempotent), `clear`/`NoPenalty` removes it (idempotent),
and it is never set before the first `penalise`.  The process-wide map is
modelled as the list of currently penalised origins. -/
abbrev PenaltyState := List String

/-- Modelled from the spec: `Penalised(origin)` — true iff the origin is
currently blocked from attempting login (spec §4.2). -/
def Penalised (st : PenaltyState) (origin : String) : Bool :=
  st.contains origin

/-- Modelled from the spec: `Penalise(origin)` — sets the origin's flag to
blocked; idempotent (spec §4.2). -/
def Penalise (st : PenaltyState) (origin : String) : PenaltyState :=
  if st.contains origin then st else origin :: st

/-- Modelled from the spec: `NoPenalty(origin)` (the spec's `clear`) — removes
the origin's blocked flag; idempotent (spec §4.2). -/
def NoPenalty (st : PenaltyState) (origin : String) : PenaltyState :=
  st.filter (fun o => o ≠ origin)

/-! ## Credentials and the login handler's verification closure
(src/unnamed/part_001) -/

/-- `StoredCredential` from src/unnamed/part_001: the hash/salt pair loaded
for one login attempt.  Byte slices are modelled as lists of naturals. -/
structure StoredCredential where
  hash : List Nat
  salt : List Nat
deriving DecidableEq, Repr

/-- `LoginCredential` from src/unnamed/part_001 (the parsed request body).
The `period` string is modelled already parsed to a duration in seconds. -/
structure LoginCredential where
  username   : String
  passphrase : String
  period     : Nat
deriving DecidableEq, Repr

/-- The credential store consulted by the login handler's SQL query
(`SELECT b.hash, b.salt FROM users AS a INNER JOIN credentials AS b
ON a.id = b.user_id WHERE a.username = ?`): an association of usernames to
stored credentials.  `lookupUser` returns the first matching row, `none`
when `rows.Next()` is false. -/
def lookupUser (store : List (String × StoredCredential)) (u : String) :
    Option StoredCredential :=
  (store.find? (fun p => p.1 == u)).map Prod.snd

/-- The type of `auth.Compare`: the abstract one-way comparison of a
passphrase against a salted hash (spec §4.1 treats the hash algorithm as out
of scope); handlers take it as a parameter. -/
abbrev CompareFn := String → List Nat → List Nat → Bool

/-- The `doAuth` closure of `login.Post` (src/unnamed/part_001 lines
126–142), returning Go's `(bool, error)` as `Except Err Bool`:
a failed `Query` is an infrastructure error, no matching row is
`(false, nil)`, otherwise the result of `auth.Compare` against the stored
hash and salt.  `queryErr` is the data-store failure, if any, of the
`DB.Query` call. -/
def doAuth (queryErr : Option Err) (compare : CompareFn)
    (store : List (String × StoredCredential)) (login : LoginCredential) :
    Except Err Bool :=
  match queryErr with
  | some e => .error e
  | none   =>
    match lookupUser store login.username with
    | none        => .ok false
    | some stored => .ok (compare login.passphrase stored.salt stored.hash)

/-! ## Session store (spec §4.3) -/

/-- `Session`: identity, opaque secret and expiration timestamp
(spec §3).  Timestamps are modelled as naturals (seconds). -/
structure Session where
  identity   : String
  secret     : String
  expiration : Nat
deriving DecidableEq, Repr

/-- The Go triple `(Session, bool, error)` returned by `Auth.Authenticate`. -/
inductive AuthResult where
  | err (e : Err)       -- (_, _, non-nil error)
  | no                  -- (empty session, false, nil)
  | yes (s : Session)   -- (session, true, nil)
deriving DecidableEq, Repr

/-- Modelled from the spec: `Auth.Authenticate(origin, identity, period,
verify)` of the missing `service/auth` package (spec §4.3): it invokes the
caller-supplied `verify` closure; an infrastructure error is propagated
without mutating penalty state; `(false, nil)` yields the empty session and
`false`; `(true, nil)` issues a fresh session whose expiration is
`now + period`.  The fresh random secret is supplied as a parameter. -/
def Authenticate (now : Nat) (identity : String) (period : Nat)
    (freshSecret : String) (verify : Except Err Bool) : AuthResult :=
  match verify with
  | .error e  => .err e
  | .ok false => .no
  | .ok true  => .yes ⟨identity, freshSecret, now + period⟩

/-! ## The login POST handler (src/unnamed/part_001 lines 90–167) -/

/-- The observable outcome of `login.Post`: a failure with HTTP status and
error message, or the marshalled `SessionCredential` response. -/
inductive LoginResponse where
  | failure (status : Nat) (msg : Err)
  | success (secret : String) (expiration : Nat)
deriving DecidableEq, Repr

/-- Penalty-tracker operations performed by one handler run, in order. -/
inductive PenaltyOp where
  | penalise  (origin : String)
  | noPenalty (origin : String)
deriving DecidableEq, Repr

/-- Complete record of one `login.Post` run: response, resulting penalty
state, the penalty operations invoked, and whether the credential store was
consulted (i.e. whether control passed the `Penalised` gate and ran
`doAuth`). -/
structure LoginOutcome where
  response  : LoginResponse
  state     : PenaltyState
  ops       : List PenaltyOp
  consulted : Bool
deriving DecidableEq, Repr

/-- `login.Post` (src/unnamed/part_001 lines 90–167) from the parsed body on:
check the retry penalty for the request origin (429 "Try again later" if
penalised, before any credential work); otherwise run
`Auth.Authenticate(ip, username, period, doAuth)`; a non-nil error is
returned with status 500; on `ok` the penalty is wiped and the session
marshalled; otherwise the origin is penalised and 401 "Bad credentials"
returned. -/
def loginPost (st : PenaltyState) (ip : String) (login : LoginCredential)
    (store : List (String × StoredCredential)) (compare : CompareFn)
    (queryErr : Option Err) (now : Nat) (freshSecret : String) :
    LoginOutcome :=
  if Penalised st ip then
    ⟨.failure 429 "Try again later", st, [], false⟩
  else
    match Authenticate now login.username login.period freshSecret
        (doAuth queryErr compare store login) with
    | .err e  => ⟨.failure 500 e, st, [], true⟩
    | .no     => ⟨.failure 401 "Bad credentials", Penalise st ip,
                  [.penalise ip], true⟩
    | .yes s  => ⟨.success s.secret s.expiration, NoPenalty st ip,
                  [.noPenalty ip], true⟩

/-! ## Data-store results, TransactionSequencer and ConnectionExecutor
(spec §4.4, §4.5) -/

deriving instance DecidableEq for Except

/-- Go's `sql.Result`: `LastInsertId()` and `RowsAffected()` each return
`(int64, error)`, modelled as `Except Err Int`. -/
structure SqlResult where
  lastInsertId : Except Err Int
  rowsAffected : Except Err Int
deriving DecidableEq, Repr

/-- A transaction/connection step over a data-store state `σ`: Go's
`func (lastResult sql.Result, t *sql.Tx) (sql.Result, error)`.  The prior
result is `none` for the first step (Go passes a nil `sql.Result`). -/
def Step (σ : Type) := Option SqlResult → σ → Except Err (SqlResult × σ)

/-- Runs the steps in order, threading each step's result into the next. -/
def runSteps {σ : Type} (steps : List (Step σ)) (prior : Option SqlResult)
    (db : σ) : Except Err (Option SqlResult × σ) :=
  match steps with
  | []        => .ok (prior, db)
  | s :: rest =>
    match s prior db with
    | .error e     => .error e
    | .ok (r, db') => runSteps rest (some r) db'

/-- Modelled from the spec: `Database.Transaction(steps...)` of the missing
`service/database` package (spec §4.4): opens one atomic unit; executes the
steps in order, passing the previous step's result into the next (the first
step receives the nil result); if any step fails the whole unit is rolled
back (the state component is the original store) and the error surfaced;
otherwise the unit commits and the last step's result is returned.
`infraErr` is a data-store failure opening the transaction. -/
def Transaction {σ : Type} (infraErr : Option Err) (db : σ)
    (steps : List (Step σ)) : Except Err (Option SqlResult) × σ :=
  match infraErr with
  | some e => (.error e, db)
  | none   =>
    match runSteps steps none db with
    | .error e     => (.error e, db)
    | .ok (r, db') => (.ok r, db')

/-- Modelled from the spec: `Database.Connection(step)` of the missing
`service/database` package (spec §4.5): executes exactly one step without an
enclosing multi-step transaction; the step receives the nil prior result.
`infraErr` is a data-store/connection failure, in which case the step does
not run and a nil result is returned with the error. -/
def Connection {σ : Type} (infraErr : Option Err) (db : σ) (step : Step σ) :
    Except Err SqlResult × σ :=
  match infraErr with
  | some e => (.error e, db)
  | none   =>
    match step none db with
    | .error e     => (.error e, db)
    | .ok (r, db') => (.ok r, db')

/-! ## Blog data store (tables `page_content` and `blog_pages`) -/

/-- A row of the `page_content` table: auto-generated `id`, `created`,
`updated` timestamps and the `body` text. -/
structure ContentRow where
  id      : Int
  created : Nat
  updated : Nat
  body    : String
deriving DecidableEq, Repr

/-- A row of the `blog_pages` index table: auto-generated `id`, `title`,
`subtitle`, `tag` and the `content_id` foreign key into `page_content`. -/
structure BlogIndexRow where
  id         : Int
  title      : String
  subtitle   : String
  tag        : String
  content_id : Int
deriving DecidableEq, Repr

/-- The blog data store: the two tables and their auto-increment counters. -/
structure BlogDb where
  content       : List ContentRow
  pages         : List BlogIndexRow
  nextContentId : Int
  nextPageId    : Int
deriving DecidableEq, Repr

/-- First row of the inner join
`blog_pages AS a INNER JOIN page_content AS b ON a.content_id = b.id
WHERE a.id = ?` (blog.go Get). -/
def blogJoinRow (db : BlogDb) (bid : Int) :
    Option (BlogIndexRow × ContentRow) :=
  (db.pages.filterMap (fun p =>
    if p.id == bid then
      (db.content.find? (fun c => c.id == p.content_id)).map (fun c => (p, c))
    else none)).head?

/-! ## Blog handlers (src/route/blog/blog.go) -/

/-- The joined row marshalled by `blog.Get` (blog.go 153–161):
`a.id, a.title, a.subtitle, a.tag, b.body, b.created, b.updated`. -/
structure BlogResponse where
  id       : Int
  title    : String
  subtitle : String
  tag      : String
  body     : String
  created  : Nat
  updated  : Nat
deriving DecidableEq, Repr

/-- `blog.Get` (blog.go 163–205): validate the `id` query parameter
(`idParam = none` models a failed `strconv.Atoi` → 400); a failed `Query` is
a 500; no joined row is a 404 ("Blog ... not found"); otherwise the joined
row is marshalled. -/
def blogGet (db : BlogDb) (idParam : Option Int) (queryErr : Option Err) :
    Except (Nat × Err) BlogResponse :=
  match idParam with
  | none     => .error (400, "Invalid query parameter")
  | some bid =>
    match queryErr with
    | some e => .error (500, e)
    | none   =>
      match blogJoinRow db bid with
      | none        => .error (404, "Blog not found")
      | some (p, c) =>
        .ok ⟨p.id, p.title, p.subtitle, p.tag, c.body, c.created, c.updated⟩

/-- `BlogPost` from blog.go: the parsed POST body (inside `auth.AuthData`). -/
structure BlogPost where
  title    : String
  subtitle : String
  tag      : String
  body     : String
deriving DecidableEq, Repr

/-- The `insertBody` step of `blog.Post` (blog.go 254–259):
`INSERT INTO page_content (created,updated,body) VALUES (?,?,?)`; the
result's `LastInsertId` is the auto-generated id of the new content row. -/
def insertBody (timeStamp : Nat) (postBody : String) : Step BlogDb :=
  fun _ db =>
    .ok (⟨.ok db.nextContentId, .ok 1⟩,
         { db with
           content := db.content ++
             [⟨db.nextContentId, timeStamp, timeStamp, postBody⟩],
           nextContentId := db.nextContentId + 1 })

/-- The `insertRecord` step of `blog.Post` (blog.go 262–271): reads
`lastResult.LastInsertId()` (propagating its error) and runs
`INSERT INTO blog_pages (title,subtitle,tag,content_id) VALUES (?,?,?,?)`
with that id as `content_id`.  A nil prior result would be a Go nil-pointer
panic; it is modelled as an error (the sequencer always passes step 1's
result here). -/
def insertRecord (post : BlogPost) : Step BlogDb :=
  fun lastResult db =>
    match lastResult with
    | none   => .error "nil prior result"
    | some r =>
      match r.lastInsertId with
      | .error e => .error e
      | .ok cid  =>
        .ok (⟨.ok db.nextPageId, .ok 1⟩,
             { db with
               pages := db.pages ++
                 [⟨db.nextPageId, post.title, post.subtitle, post.tag, cid⟩],
               nextPageId := db.nextPageId + 1 })

/-- Events observable in a mutating handler run: the `Auth.Authorized` guard
call and a data-store execution (`Transaction` or `Connection`). -/
inductive Ev where
  | auth
  | dbExec
deriving DecidableEq, Repr

/-- Result of a mutating handler: an HTTP failure, a marshalled response, or
a Go runtime panic (nil-interface dereference). -/
inductive HResult (ρ : Type) where
  | fail (status : Nat) (msg : Err)
  | ok (r : ρ)
  | panicked
deriving DecidableEq, Repr

/-- Outcome of a mutating handler run over store `σ` with response `ρ`:
result, post-state of the store, and the event trace in order. -/
structure HandlerOutcome (σ ρ : Type) where
  result : HResult ρ
  db     : σ
  trace  : List Ev
deriving DecidableEq, Repr

/-- `BlogPostResponse` from blog.go (the id formatted from `LastInsertId`,
timestamps from the handler's `timeStamp`). -/
structure BlogPostResponse where
  id       : Int
  title    : String
  subtitle : String
  tag      : String
  body     : String
  created  : Nat
  updated  : Nat
deriving DecidableEq, Repr

/-- `blog.Post` (blog.go 224–296) from the parsed body on: the
`Auth.Authorized(ip, username, secret)` guard (its outcome `authErr` is the
external auth service's answer) — an error returns 401 before any data-store
work; then `Database.Transaction(insertBody, insertRecord)` — an error is a
500; then `r.LastInsertId()` on the transaction result — an error is a 500
(a nil transaction result would panic); finally the marshalled response
echoing the post fields with the generated record id. -/
def blogPost (db : BlogDb) (authErr : Option Err) (post : BlogPost)
    (timeStamp : Nat) (infraErr : Option Err) :
    HandlerOutcome BlogDb BlogPostResponse :=
  match authErr with
  | some e => ⟨.fail 401 e, db, [.auth]⟩
  | none   =>
    match Transaction infraErr db
        [insertBody timeStamp post.body, insertRecord post] with
    | (.error e, db')     => ⟨.fail 500 e, db', [.auth, .dbExec]⟩
    | (.ok none, db')     => ⟨.panicked, db', [.auth, .dbExec]⟩
    | (.ok (some r), db') =>
      match r.lastInsertId with
      | .error e => ⟨.fail 500 e, db', [.auth, .dbExec]⟩
      | .ok id   =>
        ⟨.ok ⟨id, post.title, post.subtitle, post.tag, post.body,
              timeStamp, timeStamp⟩, db', [.auth, .dbExec]⟩

/-- `BlogPut` from blog.go: the parsed PUT body.  The Go `ID` field is a
string passed verbatim into the SQL `WHERE a.id = ?`; it is modelled already
coerced to the integer key. -/
structure BlogPut where
  id       : Int
  title    : String
  subtitle : String
  tag      : String
  body     : String
deriving DecidableEq, Repr

/-- The `updateRecord` step of `blog.Put` (blog.go 330–336):
`UPDATE blog_pages AS a INNER JOIN page_content AS b ON a.content_id = b.id
SET a.title = ?, a.subtitle = ?, b.updated = ?, b.body = ? WHERE a.id = ?`.
Only index rows joined to an existing content row are touched; the affected
count is the number of updated rows across both tables. -/
def updateRecord (post : BlogPut) (timeStamp : Nat) : Step BlogDb :=
  fun _ db =>
    let hit := fun (p : BlogIndexRow) =>
      p.id == post.id && db.content.any (fun c => c.id == p.content_id)
    let cids := (db.pages.filter hit).map (fun p => p.content_id)
    let nPages := (db.pages.filter hit).length
    let nContent := (db.content.filter (fun c => cids.contains c.id)).length
    .ok (⟨.error "no LastInsertId for UPDATE", .ok (nPages + nContent)⟩,
         { db with
           pages := db.pages.map (fun p =>
             if hit p then { p with title := post.title,
                                    subtitle := post.subtitle }
             else p),
           content := db.content.map (fun c =>
             if cids.contains c.id then { c with updated := timeStamp,
                                                 body := post.body }
             else c) })

/-- `BlogPutResponse` from blog.go: echoes the request fields with the
handler's `timeStamp` as `Updated`. -/
structure BlogPutResponse where
  id       : Int
  title    : String
  subtitle : String
  tag      : String
  updated  : Nat
  body     : String
deriving DecidableEq, Repr

/-- `blog.Put` (blog.go 315–378) from the parsed body on: the
`Auth.Authorized` guard — an error returns 401 before any data-store work;
then `Database.Connection(updateRecord)` — an error is a 500; then
`r.RowsAffected()` — an error is a 500, and zero affected rows is a 500
("Unexpected database result (no rows modified)"); otherwise the response
echoes the request (including its `tag`, which the UPDATE never wrote). -/
def blogPut (db : BlogDb) (authErr : Option Err) (post : BlogPut)
    (timeStamp : Nat) (infraErr : Option Err) :
    HandlerOutcome BlogDb BlogPutResponse :=
  match authErr with
  | some e => ⟨.fail 401 e, db, [.auth]⟩
  | none   =>
    match Connection infraErr db (updateRecord post timeStamp) with
    | (.error e, db') => ⟨.fail 500 e, db', [.auth, .dbExec]⟩
    | (.ok r, db')    =>
      match r.rowsAffected with
      | .error e => ⟨.fail 500 e, db', [.auth, .dbExec]⟩
      | .ok n    =>
        if n == 0 then
          ⟨.fail 500 "Unexpected database result (no rows modified)", db',
           [.auth, .dbExec]⟩
        else
          ⟨.ok ⟨post.id, post.title, post.subtitle, post.tag, timeStamp,
                post.body⟩, db', [.auth, .dbExec]⟩

/-- The `deleteRecord` step of `blog.Delete` (blog.go 398–403):
`DELETE a, b FROM blog_pages AS a INNER JOIN page_content AS b
ON a.content_id = b.id WHERE a.id = ?`; deletes the matching joined index
and content rows, the affected count being the total rows removed from both
tables (2 for one matched pair). -/
def deleteRecord (pid : Int) : Step BlogDb :=
  fun _ db =>
    let hit := fun (p : BlogIndexRow) =>
      p.id == pid && db.content.any (fun c => c.id == p.content_id)
    let cids := (db.pages.filter hit).map (fun p => p.content_id)
    let nPages := (db.pages.filter hit).length
    let nContent := (db.content.filter (fun c => cids.contains c.id)).length
    .ok (⟨.error "no LastInsertId for DELETE", .ok (nPages + nContent)⟩,
         { db with
           pages := db.pages.filter (fun p => !hit p),
           content := db.content.filter (fun c => !cids.contains c.id) })

/-- Outcome of a `blog.Delete` run.  `panicked` is the Go runtime panic of
calling `RowsAffected()` on a nil `sql.Result`.  In `ret`, `status` is the
final value of `re.Status` (`none` when never assigned) and `err` the error
value the handler actually returns — the source's `fail(...)` calls without
`return` set the status but discard the error. -/
inductive DeleteOutcome where
  | panicked (trace : List Ev)
  | ret (status : Option Nat) (err : Option Err) (db : BlogDb)
        (trace : List Ev)
deriving DecidableEq, Repr

/-- `blog.Delete` (blog.go 384–437) from the parsed body on, translated with
its `fail` calls exactly as written: the `Auth.Authorized` guard returns 401
on error; then `Database.Connection(deleteRecord)` — on error `fail(err,
500)` is computed but NOT returned (blog.go:424), so execution continues and
`r.RowsAffected()` dereferences the nil result: a panic; on a
`RowsAffected` error or an affected count ≠ 2, `fail(..., 500)` is again
computed but not returned (blog.go:430,432) and the handler falls through to
`return nil`: status 500, nil error. -/
def blogDelete (db : BlogDb) (authErr : Option Err) (pid : Int)
    (infraErr : Option Err) : DeleteOutcome :=
  match authErr with
  | some e => .ret (some 401) (some e) db [.auth]
  | none   =>
    match Connection infraErr db (deleteRecord pid) with
    | (.error _, _) => .panicked [.auth, .dbExec]
    | (.ok r, db')    =>
      match r.rowsAffected with
      | .error _ => .ret (some 500) none db' [.auth, .dbExec]
      | .ok n    =>
        if n != 2 then .ret (some 500) none db' [.auth, .dbExec]
        else .ret none none db' [.auth, .dbExec]

/-! ## Static data store and handlers (src/unnamed/part_000,
tables `page_content` and `static_pages`) -/

/-- A row of the `static_pages` index table: the `url_hash` key
(`UNHEX(MD5(name))`, modelled by the name string itself — MD5 is treated as
an abstract injective encoding) and the `content_id` foreign key. -/
structure StaticIndexRow where
  urlHash    : String
  content_id : Int
deriving DecidableEq, Repr

/-- The static data store: content table, index table and the content
auto-increment counter. -/
structure StaticDb where
  content       : List ContentRow
  pages         : List StaticIndexRow
  nextContentId : Int
deriving DecidableEq, Repr

/-- First row of the inner join
`page_content AS a INNER JOIN static_pages AS b ON a.id = b.content_id
WHERE b.url_hash = unhex(md5(?))` (part_000 Get). -/
def staticJoinRow (db : StaticDb) (name : String) : Option ContentRow :=
  (db.pages.filterMap (fun p =>
    if p.urlHash == name then db.content.find? (fun c => c.id == p.content_id)
    else none)).head?

/-- `GetResponse` from part_000: `body`, `created`, `updated`. -/
structure GetResponse where
  body    : String
  created : Nat
  updated : Nat
deriving DecidableEq, Repr

/-- `static.Get` (part_000 115–151): a failed `Query` is a 500; no joined
row for the requested name is a 404 ("Page ... not found"); otherwise the
joined content row is marshalled. -/
def staticGet (db : StaticDb) (name : String) (queryErr : Option Err) :
    Except (Nat × Err) GetResponse :=
  match queryErr with
  | some e => .error (500, e)
  | none   =>
    match staticJoinRow db name with
    | none   => .error (404, "Page not found")
    | some c => .ok ⟨c.body, c.created, c.updated⟩

/-- `StaticPost` from part_000: the parsed POST body. -/
structure StaticPost where
  name : String
  body : String
deriving DecidableEq, Repr

/-- `StaticPostResponse` from part_000. -/
structure StaticPostResponse where
  name    : String
  body    : String
  created : Nat
  updated : Nat
deriving DecidableEq, Repr

/-- The `insertBody` step of `static.Post` (part_000 195–200): same
content-row insert as the blog's, into `page_content`. -/
def staticInsertBody (timeStamp : Nat) (postBody : String) : Step StaticDb :=
  fun _ db =>
    .ok (⟨.ok db.nextContentId, .ok 1⟩,
         { db with
           content := db.content ++
             [⟨db.nextContentId, timeStamp, timeStamp, postBody⟩],
           nextContentId := db.nextContentId + 1 })

/-- The `insertRecord` step of `static.Post` (part_000 203–212): reads
`lastResult.LastInsertId()` (propagating its error) and runs
`INSERT INTO static_pages (url_hash,content_id) VALUES (UNHEX(MD5(?)),?)`
with that id as `content_id`. -/
def staticInsertRecord (post : StaticPost) : Step StaticDb :=
  fun lastResult db =>
    match lastResult with
    | none   => .error "nil prior result"
    | some r =>
      match r.lastInsertId with
      | .error e => .error e
      | .ok cid  =>
        .ok (⟨.error "no LastInsertId", .ok 1⟩,
             { db with pages := db.pages ++ [⟨post.name, cid⟩] })

/-- `static.Post` (part_000 165–228) from the parsed body on: the
`Auth.Authorized` guard — an error returns 401 before any data-store work;
then `Database.Transaction(insertBody, insertRecord)` — an error is a 500;
otherwise the marshalled response echoes the request with the handler's
timestamps (the transaction result is not consulted). -/
def staticPost (db : StaticDb) (authErr : Option Err) (post : StaticPost)
    (timeStamp : Nat) (infraErr : Option Err) :
    HandlerOutcome StaticDb StaticPostResponse :=
  match authErr with
  | some e => ⟨.fail 401 e, db, [.auth]⟩
  | none   =>
    match Transaction infraErr db
        [staticInsertBody timeStamp post.body, staticInsertRecord post] with
    | (.error e, db') => ⟨.fail 500 e, db', [.auth, .dbExec]⟩
    | (.ok _, db')    =>
      ⟨.ok ⟨post.name, post.body, timeStamp, timeStamp⟩, db',
       [.auth, .dbExec]⟩

/-- The event trace of a `blog.Delete` run (in both the panicking and the
returning case). -/
def DeleteOutcome.trace : DeleteOutcome → List Ev
  | .panicked t    => t
  | .ret _ _ _ t => t

/-! ## Concrete demonstration values (used by counterexamples and
witnesses) -/

/-- A credential store holding the single user `alice`. -/
def demoStore : List (String × StoredCredential) := [("alice", ⟨[7, 7], [3]⟩)]

/-- A concrete instance of the abstract one-way comparison: accepts exactly
the passphrase "correct" against alice's stored hash. -/
def demoCompare : CompareFn := fun p _ h => p == "correct" && h == [7, 7]

/-- A login request for `alice` with a wrong passphrase. -/
def demoLogin : LoginCredential := ⟨"alice", "wrong", 3600⟩

/-- The empty blog store (auto-increment counters at 1). -/
def emptyBlogDb : BlogDb := ⟨[], [], 1, 1⟩

/-- The empty static store (auto-increment counter at 1). -/
def emptyStaticDb : StaticDb := ⟨[], [], 1⟩

/-! ## Helper lemmas -/

theorem DeleteOutcome.trace_panicked (t : List Ev) :
    (DeleteOutcome.panicked t).trace = t := rfl

theorem DeleteOutcome.trace_ret (s : Option Nat) (e : Option Err)
    (d : BlogDb) (t : List Ev) : (DeleteOutcome.ret s e d t).trace = t := rfl

/-! ## Claims -/

/-- C1 counterexample: with the penalty tracker of spec §4.2 (a binary gate
set by `Penalise`), the origin is already penalised after the FIRST failed
attempt, so the second wrong-passphrase attempt from the same origin returns
429 "Try again later", not 401 — refuting "the first two attempts return 401
with the origin un-penalised before each of those attempts". -/
theorem second_failed_login_already_throttled :
    Penalised (loginPost [] "203.0.113.7" demoLogin demoStore demoCompare
      none 0 "s0").state "203.0.113.7" = true ∧
    (loginPost (loginPost [] "203.0.113.7" demoLogin demoStore demoCompare
      none 0 "s0").state "203.0.113.7" demoLogin demoStore demoCompare
      none 0 "s1").response = .failure 429 "Try again later" := by
  decide

/-- C1 (amended): for three consecutive wrong-passphrase login attempts from
the same, initially un-penalised origin, the first attempt returns 401 and
penalises the origin, and every subsequent attempt (the second and the
third, both made from the penalty state `[ip]` left by the first) returns
429 without the credential store being consulted and leaves the penalty
state unchanged. -/
theorem wrong_passphrase_attempt_sequence (ip : String)
    (login : LoginCredential) (store : List (String × StoredCredential))
    (compare : CompareFn) (cred : StoredCredential) (now : Nat)
    (s₁ s₂ : String)
    (hfind : lookupUser store login.username = some cred)
    (hcmp : compare login.passphrase cred.salt cred.hash = false) :
    Penalised [] ip = false ∧
    loginPost [] ip login store compare none now s₁ =
      ⟨.failure 401 "Bad credentials", [ip], [.penalise ip], true⟩ ∧
    Penalised [ip] ip = true ∧
    loginPost [ip] ip login store compare none now s₂ =
      ⟨.failure 429 "Try again later", [ip], [], false⟩ := by
  refine ⟨rfl, ?_, ?_, ?_⟩
  · simp [loginPost, Penalised, Penalise, doAuth, Authenticate, hfind, hcmp]
  · simp [Penalised]
  · simp [loginPost, Penalised]

/-- C1 witness: the amended attempt sequence at the concrete demonstration
inputs. -/
theorem wrong_passphrase_attempt_sequence_witness :
    Penalised [] "203.0.113.7" = false ∧
    loginPost [] "203.0.113.7" demoLogin demoStore demoCompare none 0 "s0" =
      ⟨.failure 401 "Bad credentials", ["203.0.113.7"],
       [.penalise "203.0.113.7"], true⟩ ∧
    Penalised ["203.0.113.7"] "203.0.113.7" = true ∧
    loginPost ["203.0.113.7"] "203.0.113.7" demoLogin demoStore demoCompare
      none 0 "s1" =
      ⟨.failure 429 "Try again later", ["203.0.113.7"], [], false⟩ :=
  wrong_passphrase_attempt_sequence "203.0.113.7" demoLogin demoStore
    demoCompare ⟨[7, 7], [3]⟩ 0 "s0" "s1" (by decide) (by decide)

/-- C2: every login attempt from an un-penalised origin whose credential
verification returns `(false, nil)` yields the full outcome: response 401
"Bad credentials" (no session is ever marshalled), the penalty operation
`Penalise ip` invoked, and the origin's penalty set. -/
theorem failed_login_penalised (st : PenaltyState) (ip : String)
    (login : LoginCredential) (store : List (String × StoredCredential))
    (compare : CompareFn) (queryErr : Option Err) (now : Nat)
    (secret : String)
    (hgate : Penalised st ip = false)
    (hverify : doAuth queryErr compare store login = .ok false) :
    loginPost st ip login store compare queryErr now secret =
      ⟨.failure 401 "Bad credentials", Penalise st ip, [.penalise ip],
       true⟩ := by
  simp [loginPost, hgate, Authenticate, hverify]

/-- C2 witness: the failed-login outcome at the concrete demonstration
inputs. -/
theorem failed_login_penalised_witness :
    loginPost [] "203.0.113.7" demoLogin demoStore demoCompare none 0 "s0" =
      ⟨.failure 401 "Bad credentials", Penalise [] "203.0.113.7",
       [.penalise "203.0.113.7"], true⟩ :=
  failed_login_penalised [] "203.0.113.7" demoLogin demoStore demoCompare
    none 0 "s0" (by decide) (by decide)

/-- C5: when the credential-verification closure fails with an
infrastructure error (here: the `DB.Query` error `e`), the login handler
returns that error with status 500, the penalty state is returned unchanged
and no penalty operation (`Penalise` or `NoPenalty`) is invoked. -/
theorem infra_error_login_propagated (st : PenaltyState) (ip : String)
    (login : LoginCredential) (store : List (String × StoredCredential))
    (compare : CompareFn) (e : Err) (now : Nat) (secret : String)
    (hgate : Penalised st ip = false) :
    loginPost st ip login store compare (some e) now secret =
      ⟨.failure 500 e, st, [], true⟩ := by
  simp [loginPost, hgate, doAuth, Authenticate]

/-- C5 witness: the infrastructure-error outcome at the concrete
demonstration inputs. -/
theorem infra_error_login_propagated_witness :
    loginPost [] "203.0.113.7" demoLogin demoStore demoCompare
      (some "connection refused") 0 "s0" =
      ⟨.failure 500 "connection refused", [], [], true⟩ :=
  infra_error_login_propagated [] "203.0.113.7" demoLogin demoStore
    demoCompare "connection refused" 0 "s0" (by decide)

/-- C7: two failed login attempts from the same un-penalised origin — one
naming a username absent from the store, the other naming a known user with
a passphrase that fails the hash comparison — produce identical outcomes
(response, penalty state, penalty operations and store consultation alike),
and that common response is 401 "Bad credentials": the caller cannot tell
which check failed. -/
theorem login_failure_indistinguishable (st : PenaltyState) (ip : String)
    (login₁ login₂ : LoginCredential)
    (store₁ store₂ : List (String × StoredCredential)) (compare : CompareFn)
    (cred : StoredCredential) (now₁ now₂ : Nat) (s₁ s₂ : String)
    (hgate : Penalised st ip = false)
    (hunknown : lookupUser store₁ login₁.username = none)
    (hknown : lookupUser store₂ login₂.username = some cred)
    (hcmp : compare login₂.passphrase cred.salt cred.hash = false) :
    loginPost st ip login₁ store₁ compare none now₁ s₁ =
      loginPost st ip login₂ store₂ compare none now₂ s₂ ∧
    (loginPost st ip login₁ store₁ compare none now₁ s₁).response =
      .failure 401 "Bad credentials" := by
  constructor <;>
    simp [loginPost, hgate, doAuth, Authenticate, hunknown, hknown, hcmp]

/-- C7 witness: the unknown user "mallory" against the empty store and the
known user "alice" with a wrong passphrase produce the same outcome. -/
theorem login_failure_indistinguishable_witness :
    loginPost [] "203.0.113.7" ⟨"mallory", "pw", 60⟩ [] demoCompare
      none 5 "sA" =
      loginPost [] "203.0.113.7" demoLogin demoStore demoCompare
        none 9 "sB" ∧
    (loginPost [] "203.0.113.7" ⟨"mallory", "pw", 60⟩ [] demoCompare
      none 5 "sA").response = .failure 401 "Bad credentials" :=
  login_failure_indistinguishable [] "203.0.113.7" ⟨"mallory", "pw", 60⟩
    demoLogin [] demoStore demoCompare ⟨[7, 7], [3]⟩ 5 9 "sA" "sB"
    (by decide) (by decide) (by decide) (by decide)

/-- C3: in both two-step sequenced writes (blog POST and static POST), the
content-insert step returns a result whose `LastInsertId` is the fresh
content-row id, and the committed store shows the index-insert step used
exactly that id as `content_id` — never a stale or default value. -/
theorem transaction_chains_generated_id (db : BlogDb) (sdb : StaticDb)
    (post : BlogPost) (sp : StaticPost) (ts : Nat) :
    (∃ r₁ db₁, insertBody ts post.body none db = .ok (r₁, db₁) ∧
      r₁.lastInsertId = .ok db.nextContentId ∧
      (blogPost db none post ts none).db.content =
        db.content ++ [⟨db.nextContentId, ts, ts, post.body⟩] ∧
      (blogPost db none post ts none).db.pages =
        db.pages ++ [⟨db.nextPageId, post.title, post.subtitle, post.tag,
          db.nextContentId⟩]) ∧
    (∃ r₁ db₁, staticInsertBody ts sp.body none sdb = .ok (r₁, db₁) ∧
      r₁.lastInsertId = .ok sdb.nextContentId ∧
      (staticPost sdb none sp ts none).db.content =
        sdb.content ++ [⟨sdb.nextContentId, ts, ts, sp.body⟩] ∧
      (staticPost sdb none sp ts none).db.pages =
        sdb.pages ++ [⟨sp.name, sdb.nextContentId⟩]) :=
  ⟨⟨_, _, rfl, rfl, rfl, rfl⟩, ⟨_, _, rfl, rfl, rfl, rfl⟩⟩

/-- C4: the code violates the claim — on the blog delete path an error is
computed and discarded.  At the concrete failing input (authorized DELETE of
id 1 against the empty store, so the statement affects 0 ≠ 2 rows) the
handler computes `fail(..., 500)` (the 500 status is set) but returns a nil
error: the failure is not propagated to the caller. -/
theorem delete_discards_errors :
    blogDelete emptyBlogDb none 1 none =
      .ret (some 500) none emptyBlogDb [.auth, .dbExec] := by
  decide

/-- C6: each mutating handler (blog POST, PUT, DELETE and static POST)
invokes the `Authorized` guard before any `Transaction`/`Connection` work:
when the guard fails the handler returns 401 with the store untouched and no
data-store event in its trace, and in every run the trace starts with the
guard event, a data-store event occurring only after it (and only when the
guard passed). -/
theorem authorized_guards_mutations (bdb : BlogDb) (sdb : StaticDb)
    (e : Err) (post : BlogPost) (put : BlogPut) (pid : Int)
    (sp : StaticPost) (ts : Nat) (ie a : Option Err) :
    blogPost bdb (some e) post ts ie = ⟨.fail 401 e, bdb, [.auth]⟩ ∧
    blogPut bdb (some e) put ts ie = ⟨.fail 401 e, bdb, [.auth]⟩ ∧
    blogDelete bdb (some e) pid ie = .ret (some 401) (some e) bdb [.auth] ∧
    staticPost sdb (some e) sp ts ie = ⟨.fail 401 e, sdb, [.auth]⟩ ∧
    (blogPost bdb a post ts ie).trace =
      .auth :: (if a.isSome then [] else [.dbExec]) ∧
    (blogPut bdb a put ts ie).trace =
      .auth :: (if a.isSome then [] else [.dbExec]) ∧
    (blogDelete bdb a pid ie).trace =
      .auth :: (if a.isSome then [] else [.dbExec]) ∧
    (staticPost sdb a sp ts ie).trace =
      .auth :: (if a.isSome then [] else [.dbExec]) := by
  refine ⟨rfl, rfl, rfl, rfl, ?_, ?_, ?_, ?_⟩ <;>
    cases a <;> cases ie <;> try rfl
  all_goals
    simp only [blogPut, blogDelete, Connection, updateRecord, deleteRecord,
      apply_ite HandlerOutcome.trace, apply_ite DeleteOutcome.trace,
      DeleteOutcome.trace_panicked, DeleteOutcome.trace_ret, ite_self]
  all_goals rfl

/-- C8 counterexample: a blog PUT naming an absent id (id 1 against the
empty store) does not produce a 404 NotFound: the handler returns status 500
with "Unexpected database result (no rows modified)". -/
theorem put_absent_id_returns_500 :
    blogPut emptyBlogDb none ⟨1, "t", "s", "g", "b"⟩ 0 none =
      ⟨.fail 500 "Unexpected database result (no rows modified)",
       emptyBlogDb, [.auth, .dbExec]⟩ := by
  decide

/-- C8 (amended): a GET naming an absent entity (blog id or static page
name matching no joined row) fails with 404 NotFound; but a blog PUT naming
an absent id fails with status 500 ("Unexpected database result (no rows
modified)"), and a blog DELETE naming an absent id sets status 500 and
returns a nil error (the failure is discarded), leaving the store
unchanged — neither mutating endpoint produces a 404. -/
theorem absent_entity_responses (db : BlogDb) (sdb : StaticDb) (bid : Int)
    (name : String) (put : BlogPut) (pid : Int) (ts : Nat)
    (h₁ : blogJoinRow db bid = none)
    (h₂ : staticJoinRow sdb name = none)
    (h₃ : db.pages.filter (fun p => p.id == put.id &&
            db.content.any (fun c => c.id == p.content_id)) = [])
    (h₄ : db.pages.filter (fun p => p.id == pid &&
            db.content.any (fun c => c.id == p.content_id)) = []) :
    blogGet db (some bid) none = .error (404, "Blog not found") ∧
    staticGet sdb name none = .error (404, "Page not found") ∧
    (blogPut db none put ts none).result =
      .fail 500 "Unexpected database result (no rows modified)" ∧
    blogDelete db none pid none =
      .ret (some 500) none db [.auth, .dbExec] := by
  refine ⟨?_, ?_, ?_, ?_⟩
  · simp [blogGet, h₁]
  · simp [staticGet, h₂]
  · simp [blogPut, Connection, updateRecord, h₃]
  · have hall := List.filter_eq_nil_iff.mp h₄
    have hpages : db.pages.filter (fun p => !(p.id == pid &&
        db.content.any (fun c => c.id == p.content_id))) = db.pages := by
      rw [List.filter_eq_self]
      intro p hp
      simp [hall p hp]
    have hcontent : db.content.filter (fun c =>
        !(((db.pages.filter (fun p => p.id == pid &&
              db.content.any (fun c => c.id == p.content_id))).map
            (fun p => p.content_id)).contains c.id)) = db.content := by
      rw [List.filter_eq_self]
      intro c _
      simp [h₄]
    have hstep : deleteRecord pid none db =
        .ok (⟨.error "no LastInsertId for DELETE", .ok 0⟩, db) := by
      simp only [deleteRecord, h₄, hpages, hcontent, List.map_nil,
        List.contains_nil, Bool.not_false, List.filter_true,
        List.filter_false, List.length_nil, Nat.cast_zero, add_zero]
    simp only [blogDelete, Connection, hstep]
    rfl

/-- C8 witness: the amended responses at concrete absent-entity inputs
(empty stores, id 1, page "about"). -/
theorem absent_entity_responses_witness :
    blogGet emptyBlogDb (some 1) none = .error (404, "Blog not found") ∧
    staticGet emptyStaticDb "about" none =
      .error (404, "Page not found") ∧
    (blogPut emptyBlogDb none ⟨1, "t", "s", "g", "b"⟩ 0 none).result =
      .fail 500 "Unexpected database result (no rows modified)" ∧
    blogDelete emptyBlogDb none 1 none =
      .ret (some 500) none emptyBlogDb [.auth, .dbExec] :=
  absent_entity_responses emptyBlogDb emptyStaticDb 1 "about"
    ⟨1, "t", "s", "g", "b"⟩ 1 0 (by decide) (by decide) (by decide)
    (by decide)

/-- C9: the code violates the claim — nothing prevents the nil-result
dereference.  When `Database.Connection` fails (here: "connection refused")
on an authorized delete, the handler's error branch does not return, so
execution reaches `r.RowsAffected()` on the nil result and panics. -/
theorem delete_nil_result_panics :
    blogDelete emptyBlogDb none 1 (some "connection refused") =
      .panicked [.auth, .dbExec] := by
  decide

/-- C10: a blog PUT leaves the stored tag column untouched (the id, tag and
content-id columns of every `blog_pages` row are unchanged), yet the success
response echoes the tag supplied in the request (either the update affected
no row and the handler fails with the 500 "no rows modified" message, or the
response is exactly the request's fields, tag included, with the handler's
timestamp). -/
theorem put_tag_frame (db : BlogDb) (put : BlogPut) (ts : Nat) :
    (blogPut db none put ts none).db.pages.map
        (fun p => (p.id, p.tag, p.content_id)) =
      db.pages.map (fun p => (p.id, p.tag, p.content_id)) ∧
    ((blogPut db none put ts none).result =
        .fail 500 "Unexpected database result (no rows modified)" ∨
      (blogPut db none put ts none).result =
        .ok ⟨put.id, put.title, put.subtitle, put.tag, ts, put.body⟩) := by
  constructor
  · simp only [blogPut, Connection, updateRecord]
    split <;>
    · rw [List.map_map]
      apply List.map_congr_left
      intro p _
      simp only [Function.comp_apply]
      split <;> rfl
  · simp only [blogPut, Connection, updateRecord]
    split
    · exact Or.inl rfl
    · exact Or.inr rfl

end Micrified
